import Mathlib

/-!
Shallow embedding of `src/calibre-service.py` (a small Flask service that
wraps the `ebook-convert` CLI tool) and verification of its specification.

The filesystem, the process environment and the converter subprocess are
modelled as explicit parameters of the handler function:
* `fsPre : String → Bool` models `os.path.exists` before the subprocess runs;
* `fsPost : String → Option Nat` models the target file's state after the
  subprocess ran (`os.path.exists` + `os.path.getsize`: `some size` when the
  file exists with `size` bytes, `none` when it is absent);
* `runner : List String → List (String × String) → ProcOutcome` models
  `subprocess.run` with `capture_output=True, text=True, timeout=300`:
  either the process finishes with a return code, stdout and stderr, or the
  300-second timeout expires (`subprocess.TimeoutExpired`);
* the environment `os.environ` is an association list of variables.
-/

namespace CalibreService

/-- A JSON value occurring in the request's `options` mapping: the service
receives string, boolean or integer option values and stringifies them with
Python's `str`. -/
inductive OptValue where
  | b (v : Bool)
  | s (v : String)
  | i (v : Int)
  deriving DecidableEq

/-- Python's `str()` on an option value. -/
def pyStr : OptValue → String
  | OptValue.b true => "True"
  | OptValue.b false => "False"
  | OptValue.s v => v
  | OptValue.i v => toString v

/-- The option-encoding loop of the handler (lines 86-89 of the source):

    for key, value in options.items():
        cmd.append(f'--\x7bkey\x7d')
        if value is not True:
            cmd.append(str(value))

`cmd` is the accumulator the loop appends to; the mapping is modelled as a
list of key-value pairs in the dict's (insertion-preserving) iteration
order. -/
def addOptions : List String → List (String × OptValue) → List String
  | cmd, [] => cmd
  | cmd, (k, v) :: rest =>
      addOptions
        (if v = OptValue.b true then cmd ++ ["--" ++ k]
         else cmd ++ ["--" ++ k, pyStr v]) rest

/-- Python's `str.startswith(pre)`. -/
def strStartsWith (s pre : String) : Bool :=
  pre.data.isPrefixOf s.data

/-- Python's `str.endswith(suf)`. -/
def strEndsWith (s suf : String) : Bool :=
  suf.data.reverse.isPrefixOf s.data.reverse

/-- Python's `os.path.join(a, b)` (POSIX flavour): an absolute second
component discards the first; otherwise they are concatenated with a `/`
separator unless the first is empty or already ends with `/`. -/
def osPathJoin (a b : String) : String :=
  if strStartsWith b "/" then b
  else if a = "" || strEndsWith a "/" then a ++ b
  else a ++ "/" ++ b

/-- Python's `str.rfind(c)`: index of the last occurrence of `c`, `-1` when
absent. -/
def rfindIdx (c : Char) (cs : List Char) : Int :=
  match cs.reverse.findIdx? (fun x => x = c) with
  | none => -1
  | some j => (cs.length : Int) - 1 - (j : Int)

/-- The extension component of Python's `os.path.splitext` (POSIX flavour):
the suffix of `p` from its last dot, provided that dot comes after the last
`/` and that some character strictly between the last `/` and that dot is
not itself a dot (so `".hidden"` has extension `""`). -/
def splitextExt (p : List Char) : List Char :=
  let sepIndex := rfindIdx '/' p
  let dotIndex := rfindIdx '.' p
  if sepIndex < dotIndex then
    if (List.range p.length).any (fun i =>
        decide (sepIndex < (i : Int)) && decide ((i : Int) < dotIndex)
          && (p.getD i '.' != '.')) then
      p.drop dotIndex.toNat
    else []
  else []

/-- `os.path.splitext(p)[1].lower()` from line 92 of the source. -/
def extLower (p : String) : List Char :=
  (splitextExt p.data).map Char.toLower

/-- Assignment `e[k] = v` on a Python dict modelled as an association list:
replace the value of an existing key in place, otherwise append the new
binding. -/
def envSet : List (String × String) → String → String → List (String × String)
  | [], k, v => [(k, v)]
  | (k0, v0) :: rest, k, v =>
      if k0 = k then (k0, v) :: rest else (k0, v0) :: envSet rest k v

/-- Lookup `e[k]` on a Python dict modelled as an association list. -/
def envGet (e : List (String × String)) (k : String) : Option String :=
  (e.find? (fun kv => kv.1 == k)).map (fun kv => kv.2)

/-- Outcome of `subprocess.run(cmd, capture_output=True, text=True,
timeout=300, env=env)`: the process finished with a return code, stdout and
stderr, or `subprocess.TimeoutExpired` was raised. -/
inductive ProcOutcome where
  | finished (returncode : Int) (stdout stderr : String)
  | timedOut
  deriving DecidableEq

/-- A JSON value occurring in a response body. -/
inductive JVal where
  | s (v : String)
  | n (v : Nat)
  | b (v : Bool)
  deriving DecidableEq

/-- An HTTP response: status code and JSON object body (a `jsonify(...)`
call in the source; a bare `jsonify` without a code is status 200). -/
structure Response where
  status : Nat
  body : List (String × JVal)
  deriving DecidableEq

/-- The single `subprocess.run` call of the handler, when it is reached:
the argument vector, the environment, and the `timeout=` argument. -/
structure SpawnRecord where
  cmd : List String
  env : List (String × String)
  timeout : Nat
  deriving DecidableEq

/-- Result of one `/convert` request: the HTTP response together with the
subprocess invocation the handler performed (`none` when the request was
rejected before any process was spawned). -/
structure ConvertResult where
  response : Response
  spawned : Option SpawnRecord
  deriving DecidableEq

/-- The parsed `/convert` request body: `data.get('source_path')`,
`data.get('target_path')` (absent keys give `None`, modelled as `none`) and
`data.get('options', \x7b\x7d)` in dict iteration order. -/
structure ConvertRequest where
  source_path : Option String
  target_path : Option String
  options : List (String × OptValue)

/-- Python truthiness of `data.get(...)` for a string field: `None` and the
empty string are falsy. -/
def truthy : Option String → Bool
  | none => false
  | some s => s ≠ ""

/-- Default of `BOOKS_BASE = os.environ.get('CALIBRE_LIBRARY_PATH', '/books')`. -/
def BOOKS_BASE_default : String := "/books"

/-- `full_source = os.path.join(BOOKS_BASE, source_path)` (line 57). -/
def fullSource (booksBase : String) (req : ConvertRequest) : String :=
  osPathJoin booksBase (req.source_path.getD "")

/-- `full_target = os.path.join(BOOKS_BASE, target_path)` (line 58). -/
def fullTarget (booksBase : String) (req : ConvertRequest) : String :=
  osPathJoin booksBase (req.target_path.getD "")

/-- `cmd = ['ebook-convert', full_source, full_target]` plus the encoded
options (lines 83-89). -/
def baseCmd (booksBase : String) (req : ConvertRequest) : List String :=
  addOptions ["ebook-convert", fullSource booksBase req, fullTarget booksBase req]
    req.options

/-- The test `target_ext == '.pdf'` of line 94. -/
def isPdfTarget (booksBase : String) (req : ConvertRequest) : Bool :=
  extLower (fullTarget booksBase req) = ".pdf".data

/-- The `xvfb-run` tokens prepended to the command for PDF targets (line 95). -/
def xvfbWrap : List String :=
  ["xvfb-run", "-a", "--server-args=-screen 0 1024x768x24"]

/-- The environment variable set for PDF targets (line 97). -/
def qtFlagsKey : String := "QTWEBENGINE_CHROMIUM_FLAGS"

/-- The value assigned to `QTWEBENGINE_CHROMIUM_FLAGS` for PDF targets. -/
def qtFlagsVal : String := "--no-sandbox --disable-gpu"

/-- The argument vector finally passed to `subprocess.run` (lines 83-95). -/
def convertCmd (booksBase : String) (req : ConvertRequest) : List String :=
  if isPdfTarget booksBase req then xvfbWrap ++ baseCmd booksBase req
  else baseCmd booksBase req

/-- The environment finally passed to `subprocess.run`: `os.environ.copy()`
with `QTWEBENGINE_CHROMIUM_FLAGS` set for PDF targets (lines 93-97). -/
def convertEnv (booksBase : String) (req : ConvertRequest)
    (env0 : List (String × String)) : List (String × String) :=
  if isPdfTarget booksBase req then envSet env0 qtFlagsKey qtFlagsVal
  else env0

/-- The `/convert` handler (lines 35-142 of the source), with the
filesystem, the inherited environment and the subprocess run modelled as
parameters. The debug prints and `os.makedirs(target_dir, exist_ok=True)`
have no influence on the response and are not recorded. -/
def convert (booksBase : String) (req : ConvertRequest)
    (env0 : List (String × String))
    (fsPre : String → Bool)
    (runner : List String → List (String × String) → ProcOutcome)
    (fsPost : String → Option Nat) : ConvertResult :=
  if truthy req.source_path && truthy req.target_path then
    if fsPre (fullSource booksBase req) then
      match runner (convertCmd booksBase req) (convertEnv booksBase req env0) with
      | ProcOutcome.timedOut =>
          ⟨⟨504, [("error", JVal.s "Conversion timed out (max 5 minutes)")]⟩,
           some ⟨convertCmd booksBase req, convertEnv booksBase req env0, 300⟩⟩
      | ProcOutcome.finished rc out err =>
          if rc ≠ 0 then
            ⟨⟨500, [("error", JVal.s "Conversion failed"),
                    ("details", JVal.s err),
                    ("stdout", JVal.s out)]⟩,
             some ⟨convertCmd booksBase req, convertEnv booksBase req env0, 300⟩⟩
          else
            match fsPost (fullTarget booksBase req) with
            | none =>
                ⟨⟨500, [("error",
                         JVal.s "Conversion completed but output file not found")]⟩,
                 some ⟨convertCmd booksBase req, convertEnv booksBase req env0, 300⟩⟩
            | some size =>
                ⟨⟨200, [("success", JVal.b true),
                        ("source_path", JVal.s (req.source_path.getD "")),
                        ("target_path", JVal.s (req.target_path.getD "")),
                        ("file_size", JVal.n size),
                        ("message", JVal.s "Conversion completed successfully")]⟩,
                 some ⟨convertCmd booksBase req, convertEnv booksBase req env0, 300⟩⟩
    else
      ⟨⟨404, [("error",
               JVal.s ("Source file not found: " ++ req.source_path.getD ""))]⟩,
       none⟩
  else
    ⟨⟨400, [("error", JVal.s "source_path and target_path are required")]⟩, none⟩

/-- Outcome of the `subprocess.run` call inside `get_calibre_version`
(no timeout argument): the call returns a completed process, or raises
(caught by the bare `except`). -/
inductive RunOutcome where
  | ok (stdout stderr : String) (returncode : Int)
  | raises
  deriving DecidableEq

/-- Python's `str.split(sep)` for a one-character separator, on the
character list: always returns a non-empty list of (possibly empty)
pieces. -/
def splitOnChar (sep : Char) : List Char → List (List Char)
  | [] => [[]]
  | c :: rest =>
      match splitOnChar sep rest with
      | [] => [[]]
      | h :: t => if c = sep then [] :: h :: t else (c :: h) :: t

/-- Python's `str.strip()` (no argument): drop whitespace from both ends. -/
def pyStrip (cs : List Char) : List Char :=
  ((cs.dropWhile Char.isWhitespace).reverse.dropWhile Char.isWhitespace).reverse

/-- `get_calibre_version` (lines 173-185 of the source):
`result.stdout.split('\n')[0].strip()`, or `'unknown'` when the invocation
raises. -/
def get_calibre_version (run : RunOutcome) : String :=
  match run with
  | RunOutcome.ok out _ _ =>
      String.mk (pyStrip ((splitOnChar '\n' out.data).headD []))
  | RunOutcome.raises => "unknown"

/-- Splitting an absolute path into its segments (between `/` separators)
and resolving `.` and `..` segments, POSIX style; used only to STATE what
a resolved path refers to after normalization — the service itself never
normalizes. `..` at the root stays at the root. -/
def resolveSegs : List (List Char) → List (List Char) → List (List Char)
  | acc, [] => acc.reverse
  | acc, seg :: rest =>
      if seg = ([] : List Char) || seg = ['.'] then resolveSegs acc rest
      else if seg = ['.', '.'] then resolveSegs acc.tail rest
      else resolveSegs (seg :: acc) rest

/-- The normalized segment list of an absolute path. -/
def normSegments (p : String) : List (List Char) :=
  resolveSegs [] (splitOnChar '/' p.data)

/-! ## Helper lemmas -/

theorem splitOnChar_ne_nil (sep : Char) (cs : List Char) :
    splitOnChar sep cs ≠ [] := by
  cases cs with
  | nil => simp [splitOnChar]
  | cons c rest =>
      simp only [splitOnChar]
      cases splitOnChar sep rest with
      | nil => simp
      | cons h t => by_cases hc : c = sep <;> simp [hc]

theorem splitOnChar_of_not_mem (sep : Char) (cs : List Char) (h : sep ∉ cs) :
    splitOnChar sep cs = [cs] := by
  induction cs with
  | nil => rfl
  | cons c rest ih =>
      have hc : c ≠ sep := fun hc => h (hc ▸ List.mem_cons_self c rest)
      have hrest : sep ∉ rest := fun hm => h (List.mem_cons_of_mem c hm)
      simp [splitOnChar, ih hrest, hc]

theorem splitOnChar_append_cons (sep : Char) (l rest : List Char) (h : sep ∉ l) :
    splitOnChar sep (l ++ sep :: rest) = l :: splitOnChar sep rest := by
  induction l with
  | nil =>
      simp only [List.nil_append, splitOnChar]
      cases hs : splitOnChar sep rest with
      | nil => exact absurd hs (splitOnChar_ne_nil sep rest)
      | cons h t => simp
  | cons c l ih =>
      have hc : c ≠ sep := fun hc => h (hc ▸ List.mem_cons_self c l)
      have hl : sep ∉ l := fun hm => h (List.mem_cons_of_mem c hm)
      simp [splitOnChar, ih hl, hc]

theorem envGet_envSet (e : List (String × String)) (k v : String) :
    envGet (envSet e k v) k = some v := by
  induction e with
  | nil => simp [envSet, envGet, List.find?]
  | cons kv rest ih =>
      obtain ⟨k0, v0⟩ := kv
      by_cases h : k0 = k
      · simp [envSet, envGet, h, List.find?]
      · simpa [envSet, envGet, h, List.find?] using ih

/-! ## Claims -/

/-- C2: for every options mapping, the encoder appends, per entry in
iteration order, a `--key` token, followed by the value's string
representation as a separate token if and only if the value is not the
literal boolean `True`; and `{"format": "epub", "verbose": true}` encodes
to `--format epub --verbose`. -/
theorem addOptions_encoding :
    (∀ (cmd : List String) (opts : List (String × OptValue)),
       addOptions cmd opts =
         cmd ++ opts.flatMap (fun kv =>
           ("--" ++ kv.1) ::
             (if kv.2 = OptValue.b true then [] else [pyStr kv.2]))) ∧
    addOptions [] [("format", OptValue.s "epub"), ("verbose", OptValue.b true)]
      = ["--format", "epub", "--verbose"] := by
  constructor
  · intro cmd opts
    induction opts generalizing cmd with
    | nil => simp [addOptions]
    | cons kv rest ih =>
        obtain ⟨k, v⟩ := kv
        by_cases h : v = OptValue.b true <;>
          simp [addOptions, h, ih, List.append_assoc]
  · decide

/-- C8: the version query returns the first line of the converter's
version-flag stdout, trimmed of surrounding whitespace, and returns the
sentinel `"unknown"` when the invocation raises. -/
theorem get_calibre_version_first_line :
    (∀ (line rest err : String) (rc : Int), '\n' ∉ line.data →
       get_calibre_version (RunOutcome.ok (line ++ "\n" ++ rest) err rc)
         = String.mk (pyStrip line.data)) ∧
    (∀ (out err : String) (rc : Int), '\n' ∉ out.data →
       get_calibre_version (RunOutcome.ok out err rc)
         = String.mk (pyStrip out.data)) ∧
    get_calibre_version RunOutcome.raises = "unknown" := by
  refine ⟨?_, ?_, rfl⟩
  · intro line rest err rc h
    have hdata : (line ++ "\n" ++ rest).data = line.data ++ '\n' :: rest.data := by
      simp [String.data_append]
    simp [get_calibre_version, hdata, splitOnChar_append_cons '\n' line.data rest.data h]
  · intro out err rc h
    simp [get_calibre_version, splitOnChar_of_not_mem '\n' out.data h]

/-- C8 witness: a concrete two-line stdout yields its first line stripped,
and a raising invocation yields `"unknown"`. -/
theorem get_calibre_version_first_line_witness :
    get_calibre_version
        (RunOutcome.ok (" calibre 7.21 " ++ "\n" ++ "http site") "" 0)
      = "calibre 7.21" ∧
    get_calibre_version RunOutcome.raises = "unknown" := by
  constructor
  · rw [get_calibre_version_first_line.1 " calibre 7.21 " "http site" "" 0 (by decide)]
    decide
  · exact get_calibre_version_first_line.2.2

/-- C9: path resolution joins the base directory with a relative
caller-supplied path by plain concatenation, with no normalization, and
there is a caller-supplied relative path containing `..` segments whose
resolved path lies outside the configured base directory (its normalized
segments do not extend the base's). -/
theorem osPathJoin_no_traversal_sandbox :
    (∀ (base p : String), strStartsWith p "/" = false → base ≠ "" →
       strEndsWith base "/" = false → osPathJoin base p = base ++ "/" ++ p) ∧
    ∃ p : String, (splitOnChar '/' p.data).contains ['.', '.'] = true ∧
      List.isPrefixOf (normSegments BOOKS_BASE_default)
        (normSegments (osPathJoin BOOKS_BASE_default p)) = false := by
  constructor
  · intro base p h1 h2 h3
    simp [osPathJoin, h1, h2, h3]
  · exact ⟨"../secret", by decide, by decide⟩

/-- C9 witness: a concrete relative path is joined by plain concatenation. -/
theorem osPathJoin_no_traversal_sandbox_witness :
    osPathJoin "/books" "sub/book.epub" = "/books" ++ "/" ++ "sub/book.epub" :=
  osPathJoin_no_traversal_sandbox.1 "/books" "sub/book.epub"
    (by decide) (by decide) (by decide)

/-- C10: when the caller-supplied path is absolute, the join discards the
configured base directory entirely and the resolved path equals the
caller-supplied path verbatim. -/
theorem osPathJoin_absolute_overrides (base p : String)
    (h : strStartsWith p "/" = true) : osPathJoin base p = p := by
  simp [osPathJoin, h]

/-- C10 witness: an absolute caller path survives the join verbatim for a
concrete base. -/
theorem osPathJoin_absolute_overrides_witness :
    osPathJoin "/books" "/etc/passwd" = "/etc/passwd" :=
  osPathJoin_absolute_overrides "/books" "/etc/passwd" (by decide)

/-- C1: when the resolved source exists, the converter exits with status
zero and the target file is present with `size` bytes, the handler answers
status 200 with `success: true` and `file_size` equal to that byte
length. -/
theorem convert_success_reports_file_size (booksBase : String)
    (req : ConvertRequest) (env0 : List (String × String))
    (fsPre : String → Bool)
    (runner : List String → List (String × String) → ProcOutcome)
    (fsPost : String → Option Nat) (out err : String) (size : Nat)
    (hs : truthy req.source_path = true) (ht : truthy req.target_path = true)
    (hexists : fsPre (fullSource booksBase req) = true)
    (hrun : runner (convertCmd booksBase req) (convertEnv booksBase req env0)
      = ProcOutcome.finished 0 out err)
    (htarget : fsPost (fullTarget booksBase req) = some size) :
    (convert booksBase req env0 fsPre runner fsPost).response.status = 200 ∧
    (convert booksBase req env0 fsPre runner fsPost).response.body.lookup
      "success" = some (JVal.b true) ∧
    (convert booksBase req env0 fsPre runner fsPost).response.body.lookup
      "file_size" = some (JVal.n size) := by
  simp [convert, hs, ht, hexists, hrun, htarget, List.lookup]

/-- C1 witness: a concrete successful conversion reports 200, success and
the produced file's size. -/
theorem convert_success_reports_file_size_witness :
    (convert "/books" ⟨some "a.epub", some "b.epub", []⟩ []
        (fun _ => true) (fun _ _ => ProcOutcome.finished 0 "o" "e")
        (fun _ => some 42)).response.status = 200 ∧
    (convert "/books" ⟨some "a.epub", some "b.epub", []⟩ []
        (fun _ => true) (fun _ _ => ProcOutcome.finished 0 "o" "e")
        (fun _ => some 42)).response.body.lookup "success"
      = some (JVal.b true) ∧
    (convert "/books" ⟨some "a.epub", some "b.epub", []⟩ []
        (fun _ => true) (fun _ _ => ProcOutcome.finished 0 "o" "e")
        (fun _ => some 42)).response.body.lookup "file_size"
      = some (JVal.n 42) :=
  convert_success_reports_file_size "/books" ⟨some "a.epub", some "b.epub", []⟩
    [] (fun _ => true) (fun _ _ => ProcOutcome.finished 0 "o" "e")
    (fun _ => some 42) "o" "e" 42 (by decide) (by decide) rfl rfl rfl

/-- C3: whenever the subprocess is reached, it is spawned with
`convertCmd`/`convertEnv`; for a target whose lowercased extension is
`.pdf` the command is the xvfb-run wrapper followed by the converter
command and the environment has `QTWEBENGINE_CHROMIUM_FLAGS` set to
`--no-sandbox --disable-gpu`; for any other extension the command is the
bare converter command and the environment is the inherited one,
unchanged. -/
theorem convert_pdf_display_policy (booksBase : String)
    (req : ConvertRequest) (env0 : List (String × String))
    (fsPre : String → Bool)
    (runner : List String → List (String × String) → ProcOutcome)
    (fsPost : String → Option Nat)
    (hs : truthy req.source_path = true) (ht : truthy req.target_path = true)
    (hexists : fsPre (fullSource booksBase req) = true) :
    (convert booksBase req env0 fsPre runner fsPost).spawned
      = some ⟨convertCmd booksBase req, convertEnv booksBase req env0, 300⟩ ∧
    (isPdfTarget booksBase req = true →
      convertCmd booksBase req = xvfbWrap ++ baseCmd booksBase req ∧
      envGet (convertEnv booksBase req env0) qtFlagsKey = some qtFlagsVal) ∧
    (isPdfTarget booksBase req = false →
      convertCmd booksBase req = baseCmd booksBase req ∧
      convertEnv booksBase req env0 = env0) := by
  refine ⟨?_, ?_, ?_⟩
  · simp only [convert, hs, ht, Bool.and_self, if_true, hexists]
    cases runner (convertCmd booksBase req) (convertEnv booksBase req env0) with
    | timedOut => rfl
    | finished rc out err =>
        by_cases hrc : rc ≠ 0
        · simp [hrc]
        · cases fsPost (fullTarget booksBase req) <;> simp [hrc]
  · intro hp
    exact ⟨by simp [convertCmd, hp], by simp [convertEnv, hp, envGet_envSet]⟩
  · intro hp
    exact ⟨by simp [convertCmd, hp], by simp [convertEnv, hp]⟩

/-- C3 witness: a concrete `.pdf`-target request spawns the wrapped command
with the rendering-engine environment variable set. -/
theorem convert_pdf_display_policy_witness :
    (convert "/books" ⟨some "a.epub", some "b.pdf", []⟩ [("PATH", "/bin")]
        (fun _ => true) (fun _ _ => ProcOutcome.finished 0 "o" "e")
        (fun _ => some 42)).spawned
      = some ⟨convertCmd "/books" ⟨some "a.epub", some "b.pdf", []⟩,
              convertEnv "/books" ⟨some "a.epub", some "b.pdf", []⟩
                [("PATH", "/bin")], 300⟩ ∧
    convertCmd "/books" ⟨some "a.epub", some "b.pdf", []⟩
      = xvfbWrap ++ baseCmd "/books" ⟨some "a.epub", some "b.pdf", []⟩ ∧
    envGet (convertEnv "/books" ⟨some "a.epub", some "b.pdf", []⟩
        [("PATH", "/bin")]) qtFlagsKey = some qtFlagsVal := by
  have h := convert_pdf_display_policy "/books" ⟨some "a.epub", some "b.pdf", []⟩
    [("PATH", "/bin")] (fun _ => true)
    (fun _ _ => ProcOutcome.finished 0 "o" "e") (fun _ => some 42)
    (by decide) (by decide) rfl
  exact ⟨h.1, (h.2.1 (by decide)).1, (h.2.1 (by decide)).2⟩

/-- C4: a request with a missing or empty `source_path` or `target_path`
is answered with status 400, no subprocess is spawned, and the result does
not depend on the filesystem or the process runner at all. -/
theorem convert_missing_paths_rejected (booksBase : String)
    (req : ConvertRequest) (env0 : List (String × String))
    (fsPre : String → Bool)
    (runner : List String → List (String × String) → ProcOutcome)
    (fsPost : String → Option Nat)
    (h : truthy req.source_path = false ∨ truthy req.target_path = false) :
    (convert booksBase req env0 fsPre runner fsPost).response.status = 400 ∧
    (convert booksBase req env0 fsPre runner fsPost).spawned = none ∧
    ∀ (fsPre2 : String → Bool)
      (runner2 : List String → List (String × String) → ProcOutcome)
      (fsPost2 : String → Option Nat),
      convert booksBase req env0 fsPre2 runner2 fsPost2
        = convert booksBase req env0 fsPre runner fsPost := by
  have hg : (truthy req.source_path && truthy req.target_path) = false := by
    rcases h with h | h <;> simp [h]
  refine ⟨by simp [convert, hg], by simp [convert, hg], ?_⟩
  intro fsPre2 runner2 fsPost2
  simp [convert, hg]

/-- C4 witness: a request without a `source_path` gets a 400 and spawns
nothing. -/
theorem convert_missing_paths_rejected_witness :
    (convert "/books" ⟨none, some "b.epub", []⟩ [] (fun _ => true)
        (fun _ _ => ProcOutcome.finished 0 "" "") (fun _ => none)).response.status
      = 400 ∧
    (convert "/books" ⟨none, some "b.epub", []⟩ [] (fun _ => true)
        (fun _ _ => ProcOutcome.finished 0 "" "") (fun _ => none)).spawned
      = none :=
  have h := convert_missing_paths_rejected "/books" ⟨none, some "b.epub", []⟩ []
    (fun _ => true) (fun _ _ => ProcOutcome.finished 0 "" "") (fun _ => none)
    (Or.inl (by decide))
  ⟨h.1, h.2.1⟩

/-- C5: when the resolved source path does not exist, the handler answers
status 404, no subprocess is spawned, and the result does not depend on
the process runner or on the post-run filesystem. -/
theorem convert_source_missing_rejected (booksBase : String)
    (req : ConvertRequest) (env0 : List (String × String))
    (fsPre : String → Bool)
    (runner : List String → List (String × String) → ProcOutcome)
    (fsPost : String → Option Nat)
    (hs : truthy req.source_path = true) (ht : truthy req.target_path = true)
    (hmiss : fsPre (fullSource booksBase req) = false) :
    (convert booksBase req env0 fsPre runner fsPost).response.status = 404 ∧
    (convert booksBase req env0 fsPre runner fsPost).spawned = none ∧
    ∀ (runner2 : List String → List (String × String) → ProcOutcome)
      (fsPost2 : String → Option Nat),
      convert booksBase req env0 fsPre runner2 fsPost2
        = convert booksBase req env0 fsPre runner fsPost := by
  refine ⟨by simp [convert, hs, ht, hmiss], by simp [convert, hs, ht, hmiss], ?_⟩
  intro runner2 fsPost2
  simp [convert, hs, ht, hmiss]

/-- C5 witness: a concrete request whose resolved source is absent gets a
404 and spawns nothing. -/
theorem convert_source_missing_rejected_witness :
    (convert "/books" ⟨some "a.epub", some "b.epub", []⟩ [] (fun _ => false)
        (fun _ _ => ProcOutcome.finished 0 "" "") (fun _ => none)).response.status
      = 404 ∧
    (convert "/books" ⟨some "a.epub", some "b.epub", []⟩ [] (fun _ => false)
        (fun _ _ => ProcOutcome.finished 0 "" "") (fun _ => none)).spawned
      = none :=
  have h := convert_source_missing_rejected "/books"
    ⟨some "a.epub", some "b.epub", []⟩ [] (fun _ => false)
    (fun _ _ => ProcOutcome.finished 0 "" "") (fun _ => none)
    (by decide) (by decide) rfl
  ⟨h.1, h.2.1⟩

/-- C6: when the subprocess run signals the timeout (the run is performed
with `timeout = 300` seconds), the handler answers status 504 — not the
generic 500 — with the timeout-specific message. -/
theorem convert_timeout_response (booksBase : String)
    (req : ConvertRequest) (env0 : List (String × String))
    (fsPre : String → Bool)
    (runner : List String → List (String × String) → ProcOutcome)
    (fsPost : String → Option Nat)
    (hs : truthy req.source_path = true) (ht : truthy req.target_path = true)
    (hexists : fsPre (fullSource booksBase req) = true)
    (hrun : runner (convertCmd booksBase req) (convertEnv booksBase req env0)
      = ProcOutcome.timedOut) :
    (convert booksBase req env0 fsPre runner fsPost).response.status = 504 ∧
    (convert booksBase req env0 fsPre runner fsPost).response.status ≠ 500 ∧
    (convert booksBase req env0 fsPre runner fsPost).response.body
      = [("error", JVal.s "Conversion timed out (max 5 minutes)")] ∧
    (convert booksBase req env0 fsPre runner fsPost).spawned
      = some ⟨convertCmd booksBase req, convertEnv booksBase req env0, 300⟩ := by
  refine ⟨?_, ?_, ?_, ?_⟩ <;> simp [convert, hs, ht, hexists, hrun]

/-- C6 witness: a concrete timed-out conversion yields a 504 with the
timeout message and a spawn performed under the 300-second bound. -/
theorem convert_timeout_response_witness :
    (convert "/books" ⟨some "a.epub", some "b.epub", []⟩ [] (fun _ => true)
        (fun _ _ => ProcOutcome.timedOut) (fun _ => none)).response.status
      = 504 ∧
    (convert "/books" ⟨some "a.epub", some "b.epub", []⟩ [] (fun _ => true)
        (fun _ _ => ProcOutcome.timedOut) (fun _ => none)).response.body
      = [("error", JVal.s "Conversion timed out (max 5 minutes)")] :=
  have h := convert_timeout_response "/books" ⟨some "a.epub", some "b.epub", []⟩
    [] (fun _ => true) (fun _ _ => ProcOutcome.timedOut) (fun _ => none)
    (by decide) (by decide) rfl rfl
  ⟨h.1, h.2.2.1⟩

/-- C7: when the subprocess exits with a non-zero status, the handler
answers status 500 with `details` equal to the captured stderr and a
`stdout` field equal to the captured stdout. -/
theorem convert_failure_response (booksBase : String)
    (req : ConvertRequest) (env0 : List (String × String))
    (fsPre : String → Bool)
    (runner : List String → List (String × String) → ProcOutcome)
    (fsPost : String → Option Nat) (rc : Int) (out err : String)
    (hs : truthy req.source_path = true) (ht : truthy req.target_path = true)
    (hexists : fsPre (fullSource booksBase req) = true)
    (hrc : rc ≠ 0)
    (hrun : runner (convertCmd booksBase req) (convertEnv booksBase req env0)
      = ProcOutcome.finished rc out err) :
    (convert booksBase req env0 fsPre runner fsPost).response.status = 500 ∧
    (convert booksBase req env0 fsPre runner fsPost).response.body.lookup
      "details" = some (JVal.s err) ∧
    (convert booksBase req env0 fsPre runner fsPost).response.body.lookup
      "stdout" = some (JVal.s out) := by
  refine ⟨?_, ?_, ?_⟩ <;> simp [convert, hs, ht, hexists, hrun, hrc, List.lookup]

/-- C7 witness: a concrete failed conversion yields a 500 carrying its
stderr as `details` and its stdout. -/
theorem convert_failure_response_witness :
    (convert "/books" ⟨some "a.epub", some "b.epub", []⟩ [] (fun _ => true)
        (fun _ _ => ProcOutcome.finished 1 "so" "se")
        (fun _ => none)).response.status = 500 ∧
    (convert "/books" ⟨some "a.epub", some "b.epub", []⟩ [] (fun _ => true)
        (fun _ _ => ProcOutcome.finished 1 "so" "se")
        (fun _ => none)).response.body.lookup "details" = some (JVal.s "se") ∧
    (convert "/books" ⟨some "a.epub", some "b.epub", []⟩ [] (fun _ => true)
        (fun _ _ => ProcOutcome.finished 1 "so" "se")
        (fun _ => none)).response.body.lookup "stdout" = some (JVal.s "so") :=
  convert_failure_response "/books" ⟨some "a.epub", some "b.epub", []⟩ []
    (fun _ => true) (fun _ _ => ProcOutcome.finished 1 "so" "se")
    (fun _ => none) 1 "so" "se" (by decide) (by decide) rfl (by decide) rfl

end CalibreService
